import Mathlib

/-!
Shallow embedding of the hot-reload orchestration core of the rebololang
repository (pkg/rebolo/watcher/watcher.go, cmd/rebolo/dev.go,
pkg/rebolo/rebolo.go), with theorems settling the behavioural claims about
debouncing, classification, fan-out publishing, restart coalescing, the
single-child supervisor invariant, shutdown, statistics, and the hot-reload
polling endpoint.  Times are modelled in milliseconds as naturals.
-/

namespace Rebolo

/-! ### `filepath.Ext` (Go standard library)

Go's `filepath.Ext` scans the path backwards and returns the suffix that
starts at the final dot of the final path element; it returns the empty
string when a separator is met before any dot. -/

/-- Scan the reversed character list of a path; `acc` holds the characters
already scanned, in original order. -/
def extAux : List Char → List Char → String
  | [], _ => ""
  | c :: rest, acc =>
    if c = '/' then ""
    else if c = '.' then String.mk (c :: acc)
    else extAux rest (c :: acc)

/-- Model of Go `filepath.Ext`. -/
def filepathExt (p : String) : String := extAux p.data.reverse []

/-! ### Event classification (`handleEvent` switch in watcher.go) -/

/-- The three non-ignored event categories of `FileChangeEvent.EventType`. -/
inductive EventCategory where
  | template
  | asset
  | code
  deriving DecidableEq, Repr

/-- The `EventType` string the watcher puts into a `FileChangeEvent`. -/
def EventCategory.str : EventCategory → String
  | .template => "template"
  | .asset => "asset"
  | .code => "code"

/-- The `switch ext` of `handleEvent`: `.html`/`.tmpl` are templates,
`.css`/`.js`/`.ts`/`.jsx`/`.tsx` are assets, `.go` is code, anything else
is ignored (`none`). -/
def classifyExt (ext : String) : Option EventCategory :=
  if ext = ".html" ∨ ext = ".tmpl" then some .template
  else if ext = ".css" ∨ ext = ".js" ∨ ext = ".ts" ∨ ext = ".jsx" ∨ ext = ".tsx" then
    some .asset
  else if ext = ".go" then some .code
  else none

/-- Classification of a full path: `handleEvent` computes
`filepath.Ext(event.Name)` and switches on it. -/
def classifyPath (p : String) : Option EventCategory := classifyExt (filepathExt p)

/-! ### Debouncing (`shouldProcess` in watcher.go) -/

/-- The 500 ms per-path debounce window of `shouldProcess`. -/
def debounceWindowMs : Nat := 500

/-- Lookup in the debounce map, modelled as an association list. -/
def lookupTime : List (String × Nat) → String → Option Nat
  | [], _ => none
  | (k, v) :: rest, p => if k = p then some v else lookupTime rest p

/-- Insert-or-replace in the debounce map. -/
def insertTime : List (String × Nat) → String → Nat → List (String × Nat)
  | [], p, t => [(p, t)]
  | (k, v) :: rest, p, t =>
    if k = p then (p, t) :: rest else (k, v) :: insertTime rest p t

/-- `shouldProcess`: drop if a previous timestamp for the path exists and is
less than the window ago; otherwise record `now` and admit.  The map is left
untouched on a drop. -/
def shouldProcess (db : List (String × Nat)) (path : String) (now : Nat) :
    Bool × List (String × Nat) :=
  match lookupTime db path with
  | some last =>
    if now - last < debounceWindowMs then (false, db)
    else (true, insertTime db path now)
  | none => (true, insertTime db path now)

/-! ### Watcher state (watcher.go structs) -/

/-- `FileChangeEvent` struct. -/
structure FileChangeEvent where
  path : String
  eventType : String
  timestamp : Nat
  deriving DecidableEq, Repr

/-- `WatcherStats` struct: exactly the five fields of the Go struct. -/
structure WatcherStats where
  totalChanges : Nat
  templateChanges : Nat
  assetChanges : Nat
  codeChanges : Nat
  lastChangeTime : Nat
  deriving DecidableEq, Repr

/-- Capacity of a subscriber channel (`make(chan FileChangeEvent, 10)`). -/
def subscriberCap : Nat := 10

/-- A subscriber channel: its queued events and whether it has been closed. -/
structure Subscriber where
  buf : List FileChangeEvent
  closed : Bool
  deriving DecidableEq, Repr

/-- The part of the `AppInterface` target the watcher touches:
`UpdateLastChangeTime` writes `lastChangeTime`, `ReloadTemplates` is counted. -/
structure AppState where
  lastChangeTime : Nat
  templateReloads : Nat
  deriving DecidableEq, Repr

/-- The fsnotify notifier handle; `Close` on it is idempotent and returns its
close result the first time, `none` (nil error) afterwards. -/
structure Notifier where
  closed : Bool
  closeErr : Option String
  deriving DecidableEq, Repr

/-- First close marks the notifier closed and yields its close result; a
second close is a no-op returning nil. -/
def Notifier.close (n : Notifier) : Notifier × Option String :=
  if n.closed then (n, none) else ({ n with closed := true }, n.closeErr)

/-- `FileWatcher` struct: the notifier handle is nil (`none`) until `Start`
succeeds. -/
structure FileWatcher where
  watcher : Option Notifier
  app : AppState
  subscribers : List Subscriber
  debounce : List (String × Nat)
  watchDirs : List String
  stats : WatcherStats
  deriving DecidableEq, Repr

/-- `NewFileWatcher`: empty subscriber list, empty debounce map, zero stats,
and no notifier handle yet. -/
def NewFileWatcher (app : AppState) (watchDirs : List String) : FileWatcher :=
  { watcher := none
    app := app
    subscribers := []
    debounce := []
    watchDirs := watchDirs
    stats := ⟨0, 0, 0, 0, 0⟩ }

/-- `Start`: creating the OS notifier may fail, which is fatal and leaves the
watcher unchanged; on success the handle is stored.  (Directory registration
failures are logged and skipped; the event pump runs separately.) -/
def FileWatcher.Start (fw : FileWatcher) (newNotifier : Except String Notifier) :
    Except String FileWatcher :=
  match newNotifier with
  | .error e => .error e
  | .ok w => .ok { fw with watcher := some w }

/-- `reloadTemplates`: delegates to the app (`ReloadTemplates`) and updates
the app's last-change time. -/
def reloadTemplates (app : AppState) (now : Nat) : AppState :=
  { app with templateReloads := app.templateReloads + 1, lastChangeTime := now }

/-- `recompileAssets`: only updates the app's last-change time (the dev
command does the actual compilation). -/
def recompileAssets (app : AppState) (now : Nat) : AppState :=
  { app with lastChangeTime := now }

/-- Non-blocking send (`select { case ch <- event: default: }`): enqueue when
the buffer has room, otherwise leave the channel untouched.  Returns whether
the send succeeded. -/
def trySend (s : Subscriber) (e : FileChangeEvent) : Subscriber × Bool :=
  if s.buf.length < subscriberCap then ({ s with buf := s.buf ++ [e] }, true)
  else (s, false)

/-- `notifySubscribers`: non-blocking send to every subscriber; also returns
how many deliveries were dropped (the Go code discards this count). -/
def notifySubscribers (subs : List Subscriber) (e : FileChangeEvent) :
    List Subscriber × Nat :=
  match subs with
  | [] => ([], 0)
  | s :: rest =>
    let r := trySend s e
    let tail := notifySubscribers rest e
    (r.1 :: tail.1, (if r.2 then 0 else 1) + tail.2)

/-- The statistics update of `handleEvent`: bump `TotalChanges`, set
`LastChangeTime`, and bump the one category counter. -/
def bumpStats (st : WatcherStats) (c : EventCategory) (now : Nat) : WatcherStats :=
  let st := { st with totalChanges := st.totalChanges + 1, lastChangeTime := now }
  match c with
  | .template => { st with templateChanges := st.templateChanges + 1 }
  | .asset => { st with assetChanges := st.assetChanges + 1 }
  | .code => { st with codeChanges := st.codeChanges + 1 }

/-- `handleEvent`: debounce, classify, run the per-category side effect,
update statistics, publish.  Returns the new state, the published event (if
any), and the number of dropped deliveries. -/
def handleEvent (fw : FileWatcher) (path : String) (now : Nat) :
    FileWatcher × Option FileChangeEvent × Nat :=
  let sp := shouldProcess fw.debounce path now
  if sp.1 then
    match classifyPath path with
    | none => ({ fw with debounce := sp.2 }, none, 0)
    | some c =>
      let app :=
        match c with
        | .template => reloadTemplates fw.app now
        | .asset => recompileAssets fw.app now
        | .code => fw.app
      let ev : FileChangeEvent := { path := path, eventType := c.str, timestamp := now }
      let pub := notifySubscribers fw.subscribers ev
      ({ fw with
          debounce := sp.2
          app := app
          stats := bumpStats fw.stats c now
          subscribers := pub.1 },
        some ev, pub.2)
  else (fw, none, 0)

/-- Fold a sequence of raw (path, time) events through `handleEvent`. -/
def runEvents (fw : FileWatcher) (evs : List (String × Nat)) : FileWatcher :=
  evs.foldl (fun fw e => (handleEvent fw e.1 e.2).1) fw

/-- `Stats`: snapshot of the counters. -/
def FileWatcher.Stats (fw : FileWatcher) : WatcherStats := fw.stats

/-! ### `Close`, `Subscribe`, `Unsubscribe` (watcher.go) -/

/-- `Subscribe`: append a fresh open channel of capacity 10. -/
def FileWatcher.Subscribe (fw : FileWatcher) : FileWatcher × Subscriber :=
  let ch : Subscriber := { buf := [], closed := false }
  ({ fw with subscribers := fw.subscribers ++ [ch] }, ch)

/-- Closing a Go channel: panics (`Except.error`) when the channel is already
closed, otherwise marks it closed. -/
def closeChan (s : Subscriber) : Except String Subscriber :=
  if s.closed then .error "close of closed channel"
  else .ok { s with closed := true }

/-- Close every channel in the subscriber list in order, propagating a panic. -/
def closeAll : List Subscriber → Except String (List Subscriber)
  | [] => .ok []
  | s :: rest => do
    let s2 ← closeChan s
    let rest2 ← closeAll rest
    .ok (s2 :: rest2)

/-- `Close`: log the stats snapshot, close every subscriber channel, clear the
list, then call `fw.watcher.Close()` — which dereferences a nil handle when
`Start` never stored one.  On success it returns the new state, the channels
it closed, and the notifier's close result. -/
def FileWatcher.Close (fw : FileWatcher) :
    Except String (FileWatcher × List Subscriber × Option String) := do
  let closedChans ← closeAll fw.subscribers
  match fw.watcher with
  | none => .error "nil pointer dereference"
  | some n =>
    let r := n.close
    .ok ({ fw with subscribers := [], watcher := some r.1 }, closedChans, r.2)

/-! ### Hot-reload polling endpoint (rebolo.go `hotReloadChangesHandler`) -/

/-- The handler reports `changed` exactly when the app's last-change time is
within 2 seconds (2000 ms) of now. -/
def hotReloadChangesHandler (lastChange now : Nat) : Bool :=
  now - lastChange < 2000

/-! ### Go-server hot-reload loop (dev.go `startGoServerWithHotReload`)

The loop multiplexes raw fsnotify events against a dedicated restart-debounce
timer: every Write/Create event on a `.go` file resets the timer to 500 ms,
and `startServer()` (one kill+wait+spawn cycle) runs exactly when the timer
fires. -/

/-- A raw fsnotify event as seen by the dev loop: arrival time, path, and the
Write/Create bits of the op mask. -/
structure RawEvent where
  time : Nat
  name : String
  isWrite : Bool
  isCreate : Bool
  deriving DecidableEq, Repr

/-- `event.Op&(fsnotify.Write|fsnotify.Create) != 0 && filepath.Ext(event.Name) == ".go"`. -/
def qualifiesGo (e : RawEvent) : Bool :=
  (e.isWrite || e.isCreate) && filepathExt e.name = ".go"

/-- The dedicated restart-debounce window (`debounce.Reset(500 * time.Millisecond)`). -/
def restartDebounceMs : Nat := 500

/-- One step of the select loop on a timeline: if the pending timer deadline
is due at or before this event's arrival, it fires first (one restart); a
qualifying event then resets the deadline. -/
def devStep (st : Option Nat × Nat) (e : RawEvent) : Option Nat × Nat :=
  let fired : Option Nat × Nat :=
    match st.1 with
    | some d => if d ≤ e.time then (none, st.2 + 1) else st
    | none => st
  if qualifiesGo e then (some (e.time + restartDebounceMs), fired.2) else fired

/-- Run the loop over a time-ordered list of raw events and let any pending
timer fire at the end; returns the number of debounce-triggered restart
cycles. -/
def devRun (evs : List RawEvent) : Nat :=
  let st := evs.foldl devStep (none, 0)
  match st.1 with
  | some _ => st.2 + 1
  | none => st.2

/-! ### Process supervisor (dev.go `startServer` closure)

`startServer` kills and waits on the existing child (when `cmd != nil` and
`cmd.Process != nil`) before spawning the replacement; a failed spawn leaves
no live child. -/

/-- Observable process-lifecycle actions of one `startServer` call. -/
inductive SupAction where
  | kill (g : Nat)
  | wait (g : Nat)
  | spawn (g : Nat)
  deriving DecidableEq, Repr

/-- Supervisor state: the generation of the live child held in `cmd` (none
when no child or the last spawn failed), the set of live children, and the
next generation number. -/
structure SupState where
  current : Option Nat
  alive : List Nat
  nextGen : Nat
  deriving DecidableEq, Repr

/-- Initial supervisor state: no child. -/
def initSup : SupState := { current := none, alive := [], nextGen := 0 }

/-- `startServer`: kill and wait on the prior live child, then attempt the
spawn; a failed `cmd.Start()` leaves `cmd.Process` nil.  Returns the new
state and the actions performed by this call. -/
def startServer (spawnOk : Bool) (st : SupState) : SupState × List SupAction :=
  let pre : SupState × List SupAction :=
    match st.current with
    | some g =>
      ({ st with current := none, alive := st.alive.erase g },
        [SupAction.kill g, SupAction.wait g])
    | none => (st, [])
  let st2 := pre.1
  let g := st2.nextGen
  if spawnOk then
    ({ st2 with current := some g, alive := g :: st2.alive, nextGen := g + 1 },
      pre.2 ++ [SupAction.spawn g])
  else
    ({ st2 with nextGen := g + 1 }, pre.2)

/-- Run a sequence of `startServer` calls from a given state, collecting the
full action trace. -/
def runSupFrom (st : SupState) : List Bool → SupState × List SupAction
  | [] => (st, [])
  | ok :: rest =>
    let r := startServer ok st
    let tail := runSupFrom r.1 rest
    (tail.1, r.2 ++ tail.2)

/-- Run a sequence of `startServer` calls from the initial state. -/
def runSup (calls : List Bool) : SupState × List SupAction :=
  runSupFrom initSup calls

/-- Trace automaton: a spawn is legal only when no child exists; a live child
must be killed and then waited on before it is gone.  State: `some (g, false)`
means child `g` is alive, `some (g, true)` means `g` was killed but not yet
waited on, `none` means no child.  Returns the final automaton state, or
`none` when the trace violates the discipline. -/
def runTrace : Option (Nat × Bool) → List SupAction → Option (Option (Nat × Bool))
  | st, [] => some st
  | st, SupAction.kill g :: rest =>
    match st with
    | some (g0, false) => if g = g0 then runTrace (some (g0, true)) rest else none
    | _ => none
  | st, SupAction.wait g :: rest =>
    match st with
    | some (g0, true) => if g = g0 then runTrace none rest else none
    | _ => none
  | st, SupAction.spawn g :: rest =>
    match st with
    | none => runTrace (some (g, false)) rest
    | _ => none

/-- A trace respects the single-child discipline when the automaton accepts
it from the no-child state. -/
def traceOK (acts : List SupAction) : Bool := (runTrace none acts).isSome

/-! ### Asset fallback (dev.go `setupBunAndAssets`, `createFallbackAssets`)

`createFallbackAssets` copies `src/styles.css` verbatim to
`public/index.css`, and copies `src/index.js` to `public/index.js` after
removing its `styles.css` import statements (`strings.ReplaceAll`). -/

/-- Does the string start with the pattern?  If so, return the remainder. -/
def dropPat : List Char → List Char → Option (List Char)
  | [], s => some s
  | _, [] => none
  | p :: ps, c :: cs => if p = c then dropPat ps cs else none

/-- Fuel-indexed body of Go `strings.ReplaceAll` with empty replacement. -/
def removeAllAux : Nat → List Char → List Char → List Char
  | 0, _, s => s
  | fuel + 1, pat, s =>
    match s with
    | [] => []
    | c :: cs =>
      match dropPat pat (c :: cs) with
      | some rest => removeAllAux fuel pat rest
      | none => c :: removeAllAux fuel pat cs

/-- Go `strings.ReplaceAll(s, pat, "")` (for nonempty `pat`). -/
def removeAll (s pat : String) : String :=
  String.mk (removeAllAux s.data.length pat.data s.data)

/-- The two `strings.ReplaceAll` calls of `createFallbackAssets` on the JS
source. -/
def stripCssImports (s : String) : String :=
  removeAll (removeAll s "import \x27./styles.css\x27;") "import \"./styles.css\";"

/-- The degradation log line of `setupBunAndAssets`. -/
def degradedMsg : String := "Using fallback assets (direct copy of CSS/JS)"

/-- `createFallbackAssets`: outputs written under `public/` (path, content)
and the log lines emitted.  A source file that cannot be read is skipped. -/
def createFallbackAssets (cssSrc jsSrc : Option String) :
    List (String × String) × List String :=
  let logs : List String := ["Creating fallback assets..."]
  let cssStep :=
    match cssSrc with
    | some css =>
      ([("public/index.css", css)], logs ++ ["Copied styles.css to public/index.css"])
    | none => (([] : List (String × String)), logs)
  let jsStep :=
    match jsSrc with
    | some js =>
      (cssStep.1 ++ [("public/index.js", stripCssImports js)],
        cssStep.2 ++ ["Copied index.js to public/index.js"])
    | none => cssStep
  (jsStep.1, jsStep.2 ++ ["Fallback assets created"])

/-- `setupBunAndAssets` as a function of the environment: whether `bun` is on
PATH, whether `~/.bun/bin/bun` exists, whether installing bun succeeds, and
whether the initial `buildAssets` succeeds.  Returns the files written under
`public/` by the fallback (empty when the bun build produced them instead)
and the log lines. -/
def setupBunAndAssets (bunInPath bunAtHome installOk buildOk : Bool)
    (cssSrc jsSrc : Option String) : List (String × String) × List String :=
  if !bunInPath && !bunAtHome && !installOk then
    let fb := createFallbackAssets cssSrc jsSrc
    (fb.1, ["Bun.js installation failed", degradedMsg] ++ fb.2)
  else
    if buildOk then ([], ["Assets compiled successfully"])
    else
      let fb := createFallbackAssets cssSrc jsSrc
      (fb.1, ["Asset build failed"] ++ fb.2)

/-- One debounce-fired rebuild of `watchAndCompileAssets`: its log lines. -/
def assetRebuildLog (buildOk : Bool) : List String :=
  if buildOk then ["Recompiling assets...", "Assets recompiled"]
  else ["Recompiling assets...", "Asset compilation failed"]

/-- Supervisor-state sanity: either no child is alive (and `cmd` holds no
live process) or exactly the child held in `cmd` is alive. -/
def goodSup (st : SupState) : Prop :=
  (st.current = none ∧ st.alive = []) ∨ ∃ g, st.current = some g ∧ st.alive = [g]

/-- The trace-automaton state corresponding to a supervisor state. -/
def autoOf (st : SupState) : Option (Nat × Bool) :=
  st.current.map (fun g => (g, false))

/-! ### Concrete states used by witnesses and counterexamples -/

/-- A subscriber whose 10-slot buffer is full. -/
def fullSub : Subscriber := ⟨List.replicate 10 ⟨"seed.html", "template", 0⟩, false⟩

/-- A watcher with a single full subscriber. -/
def fwFull : FileWatcher := { NewFileWatcher ⟨0, 0⟩ [] with subscribers := [fullSub] }

/-- The same watcher with a single empty subscriber. -/
def fwEmpty : FileWatcher :=
  { NewFileWatcher ⟨0, 0⟩ [] with subscribers := [⟨[], false⟩] }

/-- A started watcher with three open subscriptions. -/
def fwThree : FileWatcher :=
  { NewFileWatcher ⟨0, 0⟩ [] with
      watcher := some ⟨false, none⟩
      subscribers := [⟨[], false⟩, ⟨[], false⟩, ⟨[], false⟩] }

/-! ## Helper lemmas -/

theorem lookupTime_insertTime_self (db : List (String × Nat)) (p : String) (t : Nat) :
    lookupTime (insertTime db p t) p = some t := by
  induction db with
  | nil => simp [insertTime, lookupTime]
  | cons kv rest ih =>
    cases kv with
    | mk k v =>
      by_cases h : k = p
      · simp [insertTime, lookupTime, h]
      · simp [insertTime, lookupTime, h, ih]

/-- A drop in `shouldProcess` short-circuits `handleEvent` entirely. -/
theorem handleEvent_dropped (fw : FileWatcher) (p : String) (now : Nat)
    (h : (shouldProcess fw.debounce p now).1 = false) :
    handleEvent fw p now = (fw, none, 0) := by
  unfold handleEvent
  simp [h]

/-- An admitted, classified event: the debounce map is the one returned by
`shouldProcess` and the published event is built from path, category string
and timestamp. -/
theorem handleEvent_admitted (fw : FileWatcher) (p : String) (now : Nat)
    (c : EventCategory)
    (h1 : (shouldProcess fw.debounce p now).1 = true)
    (h2 : classifyPath p = some c) :
    (handleEvent fw p now).1.debounce = (shouldProcess fw.debounce p now).2
    ∧ (handleEvent fw p now).2.1 = some ⟨p, c.str, now⟩
    ∧ (handleEvent fw p now).1.stats = bumpStats fw.stats c now
    ∧ (handleEvent fw p now).1.subscribers
        = (notifySubscribers fw.subscribers ⟨p, c.str, now⟩).1 := by
  unfold handleEvent
  simp [h1, h2]

/-! ## Claims -/

/-- Claim C2: classification is an exhaustive, case-sensitive function of the
file extension only: `.html`/`.tmpl` map to Template, `.css`/`.js`/`.ts`/
`.jsx`/`.tsx` map to Asset, `.go` maps to Code, and every other extension is
Ignored; for an ignored path `handleEvent` emits no downstream event, updates
no statistic, touches no subscriber and leaves the app untouched. -/
theorem C2_classification :
    (∀ p q : String, filepathExt p = filepathExt q → classifyPath p = classifyPath q)
    ∧ classifyExt ".html" = some .template
    ∧ classifyExt ".tmpl" = some .template
    ∧ classifyExt ".css" = some .asset
    ∧ classifyExt ".js" = some .asset
    ∧ classifyExt ".ts" = some .asset
    ∧ classifyExt ".jsx" = some .asset
    ∧ classifyExt ".tsx" = some .asset
    ∧ classifyExt ".go" = some .code
    ∧ (∀ e : String,
        e ∉ ([".html", ".tmpl", ".css", ".js", ".ts", ".jsx", ".tsx", ".go"] : List String) →
        classifyExt e = none)
    ∧ classifyPath "index.html" = some .template
    ∧ classifyPath "app.css" = some .asset
    ∧ classifyPath "bundle.js" = some .asset
    ∧ classifyPath "x.ts" = some .asset
    ∧ classifyPath "main.go" = some .code
    ∧ classifyPath "readme.md" = none
    ∧ classifyPath "INDEX.HTML" = none
    ∧ (∀ fw : FileWatcher, ∀ p now, classifyPath p = none →
        (handleEvent fw p now).2.1 = none
        ∧ (handleEvent fw p now).2.2 = 0
        ∧ (handleEvent fw p now).1.stats = fw.stats
        ∧ (handleEvent fw p now).1.subscribers = fw.subscribers
        ∧ (handleEvent fw p now).1.app = fw.app) := by
  refine ⟨?_, by decide, by decide, by decide, by decide, by decide, by decide, by decide,
    by decide, ?_, by decide, by decide, by decide, by decide, by decide, by decide,
    by decide, ?_⟩
  · intro p q h
    unfold classifyPath
    rw [h]
  · intro e he
    simp only [List.mem_cons, List.not_mem_nil, or_false, not_or] at he
    obtain ⟨h1, h2, h3, h4, h5, h6, h7, h8⟩ := he
    simp [classifyExt, h1, h2, h3, h4, h5, h6, h7, h8]
  · intro fw p now hcl
    unfold handleEvent
    cases hsp : (shouldProcess fw.debounce p now).1 <;> simp [hsp, hcl]

/-- Concrete instantiation of `C2_classification`: two distinct paths with the
same extension classify alike, and an ignored path leaves the watcher's
statistics untouched. -/
theorem C2_classification_witness :
    classifyPath "a/b.html" = classifyPath "c.html"
    ∧ classifyExt ".scss" = none
    ∧ (handleEvent (NewFileWatcher ⟨0, 0⟩ []) "readme.md" 7).1.stats
        = (NewFileWatcher ⟨0, 0⟩ []).stats :=
  ⟨C2_classification.1 "a/b.html" "c.html" (by decide),
    C2_classification.2.2.2.2.2.2.2.2.2.1 ".scss" (by decide),
    (C2_classification.2.2.2.2.2.2.2.2.2.2.2.2.2.2.2.2.2 (NewFileWatcher ⟨0, 0⟩ []) "readme.md" 7
      (by decide)).2.2.1⟩

/-- Claim C1: per-path debouncing.  Starting from a state with no debounce
entry for `p`, the first raw event for `p` is admitted (a `ChangeEvent` is
produced) and records `t1` as the last-processed timestamp for `p`; a second
raw event less than 500 ms later is dropped and leaves the timestamp at `t1`,
while a second raw event at least 500 ms later is admitted and updates the
timestamp to `t2`. -/
theorem C1_debounce (p : String) (t1 t2 : Nat) (fw : FileWatcher)
    (hfresh : lookupTime fw.debounce p = none)
    (hcl : classifyPath p ≠ none) :
    ((handleEvent fw p t1).2.1.isSome = true
      ∧ lookupTime (handleEvent fw p t1).1.debounce p = some t1)
    ∧ (t2 - t1 < debounceWindowMs →
        (handleEvent (handleEvent fw p t1).1 p t2).2.1 = none
        ∧ lookupTime (handleEvent (handleEvent fw p t1).1 p t2).1.debounce p = some t1)
    ∧ (debounceWindowMs ≤ t2 - t1 →
        (handleEvent (handleEvent fw p t1).1 p t2).2.1.isSome = true
        ∧ lookupTime (handleEvent (handleEvent fw p t1).1 p t2).1.debounce p = some t2) := by
  obtain ⟨c, hc⟩ : ∃ c, classifyPath p = some c := by
    cases h : classifyPath p with
    | none => exact absurd h hcl
    | some c => exact ⟨c, rfl⟩
  have hsp1 : shouldProcess fw.debounce p t1 = (true, insertTime fw.debounce p t1) := by
    unfold shouldProcess
    rw [hfresh]
  have h1 := handleEvent_admitted fw p t1 c (by rw [hsp1]) hc
  have hdb1 : (handleEvent fw p t1).1.debounce = insertTime fw.debounce p t1 := by
    rw [h1.1, hsp1]
  have hlook1 : lookupTime (handleEvent fw p t1).1.debounce p = some t1 := by
    rw [hdb1]; exact lookupTime_insertTime_self _ _ _
  refine ⟨⟨by rw [h1.2.1]; rfl, hlook1⟩, ?_, ?_⟩
  · intro hlt
    have hsp2 : shouldProcess (handleEvent fw p t1).1.debounce p t2
        = (false, (handleEvent fw p t1).1.debounce) := by
      unfold shouldProcess
      rw [hlook1]
      simp [hlt]
    have h2 := handleEvent_dropped (handleEvent fw p t1).1 p t2 (by rw [hsp2])
    rw [h2]
    exact ⟨rfl, hlook1⟩
  · intro hge
    have hsp2 : shouldProcess (handleEvent fw p t1).1.debounce p t2
        = (true, insertTime (handleEvent fw p t1).1.debounce p t2) := by
      unfold shouldProcess
      rw [hlook1]
      simp [Nat.not_lt.mpr hge]
    have h2 := handleEvent_admitted (handleEvent fw p t1).1 p t2 c (by rw [hsp2]) hc
    refine ⟨by rw [h2.2.1]; rfl, ?_⟩
    rw [h2.1, hsp2]
    exact lookupTime_insertTime_self _ _ _

/-- Concrete instantiation of `C1_debounce`, matching the spec scenario:
events for `views/home/index.html` at t=0 ms and t=10 ms give exactly one
admitted event (timestamp stays 0), and a further fresh run with the second
event at t=600 ms gives two admitted events (timestamp moves to 600). -/
theorem C1_debounce_witness :
    ((handleEvent (NewFileWatcher ⟨0, 0⟩ []) "views/home/index.html" 0).2.1.isSome = true)
    ∧ ((handleEvent (handleEvent (NewFileWatcher ⟨0, 0⟩ []) "views/home/index.html" 0).1
        "views/home/index.html" 10).2.1 = none)
    ∧ ((handleEvent (handleEvent (NewFileWatcher ⟨0, 0⟩ []) "views/home/index.html" 0).1
        "views/home/index.html" 600).2.1.isSome = true)
    ∧ (lookupTime (handleEvent (handleEvent (NewFileWatcher ⟨0, 0⟩ [])
        "views/home/index.html" 0).1 "views/home/index.html" 600).1.debounce
        "views/home/index.html" = some 600) := by
  have h10 := C1_debounce "views/home/index.html" 0 10 (NewFileWatcher ⟨0, 0⟩ [])
    (by decide) (by decide)
  have h600 := C1_debounce "views/home/index.html" 0 600 (NewFileWatcher ⟨0, 0⟩ [])
    (by decide) (by decide)
  exact ⟨h10.1.1, (h10.2.1 (by decide)).1, (h600.2.2 (by decide)).1, (h600.2.2 (by decide)).2⟩

/-! Helper lemmas for the statistics and app-state claims. -/

theorem bumpStats_total (st : WatcherStats) (c : EventCategory) (now : Nat) :
    (bumpStats st c now).totalChanges = st.totalChanges + 1
    ∧ (bumpStats st c now).templateChanges + (bumpStats st c now).assetChanges
        + (bumpStats st c now).codeChanges
      = st.templateChanges + st.assetChanges + st.codeChanges + 1
    ∧ st.templateChanges ≤ (bumpStats st c now).templateChanges
    ∧ st.assetChanges ≤ (bumpStats st c now).assetChanges
    ∧ st.codeChanges ≤ (bumpStats st c now).codeChanges := by
  cases c <;> simp [bumpStats] <;> omega

theorem handleEvent_stats_cases (fw : FileWatcher) (p : String) (t : Nat) :
    (handleEvent fw p t).1.stats = fw.stats
    ∨ ∃ c, classifyPath p = some c
        ∧ (handleEvent fw p t).1.stats = bumpStats fw.stats c t := by
  cases hsp : (shouldProcess fw.debounce p t).1
  · left
    rw [handleEvent_dropped fw p t hsp]
  · cases hc : classifyPath p with
    | none =>
      left
      unfold handleEvent
      simp [hsp, hc]
    | some c => exact Or.inr ⟨c, rfl, (handleEvent_admitted fw p t c hsp hc).2.2.1⟩

theorem handleEvent_emitted (fw : FileWatcher) (p : String) (t : Nat)
    (h : (handleEvent fw p t).2.1.isSome = true) :
    ∃ c, classifyPath p = some c
      ∧ (handleEvent fw p t).1.stats = bumpStats fw.stats c t := by
  cases hsp : (shouldProcess fw.debounce p t).1
  · rw [handleEvent_dropped fw p t hsp] at h
    simp at h
  · cases hc : classifyPath p with
    | none =>
      unfold handleEvent at h
      simp [hsp, hc] at h
    | some c => exact ⟨c, rfl, (handleEvent_admitted fw p t c hsp hc).2.2.1⟩

theorem runEvents_sum (evs : List (String × Nat)) :
    ∀ fw : FileWatcher,
      fw.stats.totalChanges
        = fw.stats.templateChanges + fw.stats.assetChanges + fw.stats.codeChanges →
      (runEvents fw evs).stats.totalChanges
        = (runEvents fw evs).stats.templateChanges + (runEvents fw evs).stats.assetChanges
          + (runEvents fw evs).stats.codeChanges := by
  induction evs with
  | nil =>
    intro fw h
    simpa [runEvents] using h
  | cons e rest ih =>
    intro fw h
    have hrun : runEvents fw (e :: rest) = runEvents (handleEvent fw e.1 e.2).1 rest := by
      simp [runEvents]
    rw [hrun]
    apply ih
    rcases handleEvent_stats_cases fw e.1 e.2 with hsame | ⟨c, _, hbump⟩
    · rw [hsame]; exact h
    · rw [hbump]
      have hb := bumpStats_total fw.stats c e.2
      omega

/-- A code-classified path never touches the app (no `UpdateLastChangeTime`,
no `ReloadTemplates`). -/
theorem handleEvent_code_app (fw : FileWatcher) (p : String) (t : Nat)
    (hc : classifyPath p = some .code) :
    (handleEvent fw p t).1.app = fw.app := by
  cases hsp : (shouldProcess fw.debounce p t).1
  · rw [handleEvent_dropped fw p t hsp]
  · unfold handleEvent
    simp [hsp, hc]

theorem runEvents_code_app (evs : List (String × Nat)) :
    ∀ fw : FileWatcher, (∀ e ∈ evs, classifyPath e.1 = some .code) →
      (runEvents fw evs).app = fw.app := by
  induction evs with
  | nil =>
    intro fw _
    simp [runEvents]
  | cons e rest ih =>
    intro fw h
    have hrun : runEvents fw (e :: rest) = runEvents (handleEvent fw e.1 e.2).1 rest := by
      simp [runEvents]
    rw [hrun, ih _ (fun x hx => h x (List.mem_cons_of_mem _ hx)),
      handleEvent_code_app fw e.1 e.2 (h e (List.mem_cons_self _ _))]

/-- Claim C8: statistics sum invariant.  From a fresh watcher, after any
sequence of raw events `TotalChanges` equals the sum of the three category
counters; every `handleEvent` step is monotone in all four counters; and each
step that publishes an event increments `TotalChanges` and the category sum
by exactly one. -/
theorem C8_stats_invariant :
    (∀ (app : AppState) (dirs : List String) (evs : List (String × Nat)),
      (runEvents (NewFileWatcher app dirs) evs).stats.totalChanges
        = (runEvents (NewFileWatcher app dirs) evs).stats.templateChanges
          + (runEvents (NewFileWatcher app dirs) evs).stats.assetChanges
          + (runEvents (NewFileWatcher app dirs) evs).stats.codeChanges)
    ∧ (∀ fw : FileWatcher, ∀ p t,
        fw.stats.totalChanges ≤ (handleEvent fw p t).1.stats.totalChanges
        ∧ fw.stats.templateChanges ≤ (handleEvent fw p t).1.stats.templateChanges
        ∧ fw.stats.assetChanges ≤ (handleEvent fw p t).1.stats.assetChanges
        ∧ fw.stats.codeChanges ≤ (handleEvent fw p t).1.stats.codeChanges)
    ∧ (∀ fw : FileWatcher, ∀ p t, (handleEvent fw p t).2.1.isSome = true →
        (handleEvent fw p t).1.stats.totalChanges = fw.stats.totalChanges + 1
        ∧ (handleEvent fw p t).1.stats.templateChanges
            + (handleEvent fw p t).1.stats.assetChanges
            + (handleEvent fw p t).1.stats.codeChanges
          = fw.stats.templateChanges + fw.stats.assetChanges + fw.stats.codeChanges + 1) := by
  refine ⟨fun app dirs evs => runEvents_sum evs _ (by simp [NewFileWatcher]), ?_, ?_⟩
  · intro fw p t
    rcases handleEvent_stats_cases fw p t with hsame | ⟨c, _, hbump⟩
    · rw [hsame]
      exact ⟨le_refl _, le_refl _, le_refl _, le_refl _⟩
    · rw [hbump]
      have hb := bumpStats_total fw.stats c t
      refine ⟨by omega, hb.2.2.1, hb.2.2.2.1, hb.2.2.2.2⟩
  · intro fw p t h
    obtain ⟨c, _, hbump⟩ := handleEvent_emitted fw p t h
    rw [hbump]
    have hb := bumpStats_total fw.stats c t
    exact ⟨hb.1, hb.2.1⟩

/-- Concrete instantiation of `C8_stats_invariant`: a published asset event on
a fresh watcher moves `TotalChanges` from 0 to 1 and the category sum from 0
to 1. -/
theorem C8_stats_invariant_witness :
    (handleEvent fwEmpty "app.css" 1000).1.stats.totalChanges
      = fwEmpty.stats.totalChanges + 1
    ∧ (handleEvent fwEmpty "app.css" 1000).1.stats.templateChanges
        + (handleEvent fwEmpty "app.css" 1000).1.stats.assetChanges
        + (handleEvent fwEmpty "app.css" 1000).1.stats.codeChanges
      = fwEmpty.stats.templateChanges + fwEmpty.stats.assetChanges
        + fwEmpty.stats.codeChanges + 1 :=
  C8_stats_invariant.2.2 fwEmpty "app.css" 1000 (by decide)

/-- Claim C9: a Code-classified event never invokes the app's
`UpdateLastChangeTime` (the app state is untouched), while an admitted
Template or Asset event sets the app's last-change time; hence after a trace
of code-only events from a fresh app the last-change time is still 0 and the
long-poll changes endpoint, which reports changed only within 2000 ms of the
last change, reports no change. -/
theorem C9_code_no_reload_signal :
    (∀ fw : FileWatcher, ∀ p t, classifyPath p = some .code →
        (handleEvent fw p t).1.app = fw.app)
    ∧ (∀ fw : FileWatcher, ∀ p t, ∀ c, classifyPath p = some c → c ≠ .code →
        (handleEvent fw p t).2.1.isSome = true →
        (handleEvent fw p t).1.app.lastChangeTime = t)
    ∧ (∀ (dirs : List String) (evs : List (String × Nat)) (reloads : Nat),
        (∀ e ∈ evs, classifyPath e.1 = some .code) →
        (runEvents (NewFileWatcher ⟨0, reloads⟩ dirs) evs).app.lastChangeTime = 0
        ∧ ∀ now, 2000 ≤ now →
            hotReloadChangesHandler
              (runEvents (NewFileWatcher ⟨0, reloads⟩ dirs) evs).app.lastChangeTime now
              = false) := by
  refine ⟨fun fw p t hc => handleEvent_code_app fw p t hc, ?_, ?_⟩
  · intro fw p t c hc hne hsome
    cases hsp : (shouldProcess fw.debounce p t).1
    · rw [handleEvent_dropped fw p t hsp] at hsome
      simp at hsome
    · unfold handleEvent
      cases c with
      | template => simp [hsp, hc, reloadTemplates]
      | asset => simp [hsp, hc, recompileAssets]
      | code => exact absurd rfl hne
  · intro dirs evs reloads hall
    have happ := runEvents_code_app evs (NewFileWatcher ⟨0, reloads⟩ dirs) hall
    have hlast : (runEvents (NewFileWatcher ⟨0, reloads⟩ dirs) evs).app.lastChangeTime = 0 := by
      rw [happ]
      simp [NewFileWatcher]
    refine ⟨hlast, fun now hnow => ?_⟩
    rw [hlast]
    simp [hotReloadChangesHandler, Nat.not_lt.mpr hnow]

/-- Concrete instantiation of `C9_code_no_reload_signal`: two code events
leave the app untouched and the polling endpoint reports no change at
t=5000 ms; a template event does set the last-change time. -/
theorem C9_code_no_reload_signal_witness :
    (runEvents (NewFileWatcher ⟨0, 0⟩ []) [("main.go", 0), ("a/b.go", 700)]).app.lastChangeTime
      = 0
    ∧ hotReloadChangesHandler
        (runEvents (NewFileWatcher ⟨0, 0⟩ []) [("main.go", 0), ("a/b.go", 700)]).app.lastChangeTime
        5000 = false
    ∧ (handleEvent (NewFileWatcher ⟨0, 0⟩ []) "index.html" 42).1.app.lastChangeTime = 42 := by
  have h3 := C9_code_no_reload_signal.2.2 [] [("main.go", 0), ("a/b.go", 700)] 0 (by decide)
  have h2 := C9_code_no_reload_signal.2.1 (NewFileWatcher ⟨0, 0⟩ []) "index.html" 42
    EventCategory.template (by decide) (by decide) (by decide)
  exact ⟨h3.1, h3.2 5000 (by decide), h2⟩

/-! Helper lemma for the fan-out claim: the exact shape of a publish. -/

theorem notifySubscribers_spec (subs : List Subscriber) (e : FileChangeEvent) :
    (notifySubscribers subs e).1
      = subs.map (fun s =>
          if s.buf.length < subscriberCap then { s with buf := s.buf ++ [e] } else s)
    ∧ (notifySubscribers subs e).2
      = subs.countP (fun s => !(s.buf.length < subscriberCap : Bool)) := by
  induction subs with
  | nil => simp [notifySubscribers]
  | cons s rest ih =>
    by_cases h : s.buf.length < subscriberCap
    · simp [notifySubscribers, trySend, h, ih.1, ih.2, List.countP_cons]
    · simp [notifySubscribers, trySend, h, ih.1, ih.2, List.countP_cons]
      omega

/-- Claim C3 as the code implements it: publishing an admitted event is a
non-blocking per-subscriber send — every subscriber with a full buffer misses
the event (its buffer is untouched) while every other subscriber receives it,
`Stats().TotalChanges` increments by one regardless of delivery success (the
stats after the event do not depend on the subscriber buffers at all), and
the number of dropped deliveries equals the number of full buffers but is
recorded nowhere in the watcher's state. -/
theorem C3_publish_nonblocking (fw : FileWatcher) (path : String) (now : Nat)
    (c : EventCategory)
    (hallow : (shouldProcess fw.debounce path now).1 = true)
    (hcl : classifyPath path = some c) :
    (handleEvent fw path now).1.stats.totalChanges = fw.stats.totalChanges + 1
    ∧ (handleEvent fw path now).1.subscribers
        = fw.subscribers.map (fun s =>
            if s.buf.length < subscriberCap
            then { s with buf := s.buf ++ [⟨path, c.str, now⟩] } else s)
    ∧ (handleEvent fw path now).2.2
        = fw.subscribers.countP (fun s => !(s.buf.length < subscriberCap : Bool))
    ∧ (∀ subs2 : List Subscriber,
        (handleEvent { fw with subscribers := subs2 } path now).1.stats
          = (handleEvent fw path now).1.stats) := by
  have h := handleEvent_admitted fw path now c hallow hcl
  have hb := bumpStats_total fw.stats c now
  refine ⟨by rw [h.2.2.1]; exact hb.1, ?_, ?_, ?_⟩
  · rw [h.2.2.2, (notifySubscribers_spec fw.subscribers _).1]
  · have hdrop : (handleEvent fw path now).2.2
        = (notifySubscribers fw.subscribers ⟨path, c.str, now⟩).2 := by
      unfold handleEvent
      simp [hallow, hcl]
    rw [hdrop, (notifySubscribers_spec fw.subscribers _).2]
  · intro subs2
    have h2 := handleEvent_admitted { fw with subscribers := subs2 } path now c hallow hcl
    rw [h2.2.2.1, h.2.2.1]

/-- Concrete instantiation of `C3_publish_nonblocking`: with one full
subscriber, publishing `app.css` still increments `TotalChanges`, leaves the
full buffer untouched, and reports one dropped delivery. -/
theorem C3_publish_nonblocking_witness :
    (handleEvent fwFull "app.css" 1000).1.stats.totalChanges
      = fwFull.stats.totalChanges + 1
    ∧ (handleEvent fwFull "app.css" 1000).2.2
        = fwFull.subscribers.countP (fun s => !(s.buf.length < subscriberCap : Bool))
    ∧ (handleEvent { fwFull with subscribers := [⟨[], false⟩] } "app.css" 1000).1.stats
        = (handleEvent fwFull "app.css" 1000).1.stats := by
  have h := C3_publish_nonblocking fwFull "app.css" 1000 EventCategory.asset
    (by decide) (by decide)
  exact ⟨h.1, h.2.2.1, h.2.2.2 [⟨[], false⟩]⟩

/-- Counterexample to claim C3 as stated: the claim says dropped deliveries
are "counted separately" from the processed-event statistics, but the watcher
counts drops nowhere — `WatcherStats` has only the four change counters and
the last-change time, and a run in which one delivery is dropped produces a
state identical (statistics, app, debounce map) to the run in which the
delivery succeeds, differing only in the subscriber's buffer. -/
theorem C3_counterexample :
    (handleEvent fwFull "app.css" 1000).2.2 = 1
    ∧ (handleEvent fwEmpty "app.css" 1000).2.2 = 0
    ∧ (handleEvent fwFull "app.css" 1000).1.stats
        = (handleEvent fwEmpty "app.css" 1000).1.stats
    ∧ (handleEvent fwFull "app.css" 1000).1.app
        = (handleEvent fwEmpty "app.css" 1000).1.app
    ∧ (handleEvent fwFull "app.css" 1000).1.debounce
        = (handleEvent fwEmpty "app.css" 1000).1.debounce
    ∧ (handleEvent fwFull "app.css" 1000).1.subscribers = [fullSub] := by
  decide

/-! Helper lemmas for the shutdown claims. -/

theorem closeAll_ok (subs : List Subscriber) (h : ∀ s ∈ subs, s.closed = false) :
    closeAll subs = .ok (subs.map fun s => { s with closed := true }) := by
  induction subs with
  | nil => simp [closeAll]
  | cons s rest ih =>
    have hs : s.closed = false := h s (List.mem_cons_self _ _)
    have hr := ih (fun x hx => h x (List.mem_cons_of_mem _ hx))
    simp only [closeAll, closeChan, hs, hr, Bool.false_eq_true, if_false, List.map_cons]
    rfl

theorem Notifier.close_idem (n : Notifier) : ((n.close).1.close).2 = none := by
  cases hn : n.closed <;> simp [Notifier.close, hn]

/-- Claim C6: on a started watcher with open subscriptions, `Close` closes
every remaining subscriber channel exactly once (closing an already-closed
channel would panic, and `closeAll` succeeds), clears the subscriber list,
returns the notifier's close result, leaves `Stats()` readable and unchanged,
and a second `Close` also succeeds — it closes no channel and does not
panic. -/
theorem C6_close_idempotent (fw : FileWatcher) (n : Notifier)
    (hw : fw.watcher = some n)
    (hopen : ∀ s ∈ fw.subscribers, s.closed = false) :
    ∃ fw2 : FileWatcher,
      fw.Close = .ok (fw2, fw.subscribers.map (fun s => { s with closed := true }), (n.close).2)
      ∧ (∀ s ∈ fw.subscribers.map (fun s => { s with closed := true }), s.closed = true)
      ∧ (fw.subscribers.map (fun s => { s with closed := true })).length
          = fw.subscribers.length
      ∧ fw2.subscribers = []
      ∧ fw2.Stats = fw.Stats
      ∧ ∃ fw3 : FileWatcher, fw2.Close = .ok (fw3, [], none) := by
  refine ⟨{ fw with subscribers := [], watcher := some (n.close).1 }, ?_, ?_, by simp, rfl,
    rfl, ?_⟩
  · unfold FileWatcher.Close
    rw [closeAll_ok fw.subscribers hopen, hw]
    rfl
  · intro s hs
    simp only [List.mem_map] at hs
    obtain ⟨x, _, hx⟩ := hs
    rw [← hx]
  · refine ⟨{ fw with subscribers := [], watcher := some ((n.close).1.close).1 }, ?_⟩
    unfold FileWatcher.Close
    rw [closeAll_ok [] (by simp)]
    simp only [Notifier.close_idem n]
    rfl

/-- Concrete instantiation of `C6_close_idempotent`, matching the spec
scenario: a started watcher with 3 open subscriptions. -/
theorem C6_close_idempotent_witness :
    ∃ fw2 : FileWatcher,
      fwThree.Close
        = .ok (fw2, fwThree.subscribers.map (fun s => { s with closed := true }),
            ((⟨false, none⟩ : Notifier).close).2)
      ∧ (∀ s ∈ fwThree.subscribers.map (fun s => { s with closed := true }), s.closed = true)
      ∧ (fwThree.subscribers.map (fun s => { s with closed := true })).length
          = fwThree.subscribers.length
      ∧ fw2.subscribers = []
      ∧ fw2.Stats = fwThree.Stats
      ∧ ∃ fw3 : FileWatcher, fw2.Close = .ok (fw3, [], none) :=
  C6_close_idempotent fwThree ⟨false, none⟩ rfl (by decide)

/-- Claim C10: `Close` is safe only after a successful `Start`.  A fresh
watcher has a nil notifier handle; `Close` on any watcher whose handle is nil
panics with a nil dereference (after having closed the subscriber channels);
a failed `Start` reports the error without storing a handle; and after a
successful `Start` the handle is the created notifier and `Close` returns
that notifier's close result. -/
theorem C10_close_needs_start :
    (∀ (app : AppState) (dirs : List String), (NewFileWatcher app dirs).watcher = none)
    ∧ (∀ fw : FileWatcher, fw.watcher = none →
        (∀ s ∈ fw.subscribers, s.closed = false) →
        fw.Close = .error "nil pointer dereference")
    ∧ (∀ fw : FileWatcher, ∀ e, fw.Start (.error e) = .error e)
    ∧ (∀ fw fw2 : FileWatcher, ∀ n : Notifier, fw.Start (.ok n) = .ok fw2 →
        fw2.watcher = some n
        ∧ ((∀ s ∈ fw.subscribers, s.closed = false) →
            fw2.Close
              = .ok ({ fw2 with subscribers := [], watcher := some (n.close).1 },
                  fw.subscribers.map (fun s => { s with closed := true }), (n.close).2))) := by
  refine ⟨fun app dirs => rfl, ?_, fun fw e => rfl, ?_⟩
  · intro fw hnil hopen
    unfold FileWatcher.Close
    rw [closeAll_ok fw.subscribers hopen, hnil]
    rfl
  · intro fw fw2 n hstart
    have hfw2 : fw2 = { fw with watcher := some n } := by
      unfold FileWatcher.Start at hstart
      exact (Except.ok.inj hstart).symm
    subst hfw2
    refine ⟨rfl, fun hopen => ?_⟩
    unfold FileWatcher.Close
    rw [closeAll_ok _ hopen]
    rfl

/-- Concrete instantiation of `C10_close_needs_start`: a fresh watcher's
`Close` panics on the nil handle, and after a successful `Start` it returns
the notifier's close result. -/
theorem C10_close_needs_start_witness :
    (NewFileWatcher ⟨0, 0⟩ ["views"]).watcher = none
    ∧ (NewFileWatcher ⟨0, 0⟩ ["views"]).Close = .error "nil pointer dereference"
    ∧ ((NewFileWatcher ⟨0, 0⟩ ["views"]).Start
        (.error "inotify instance limit reached") = .error "inotify instance limit reached")
    ∧ ({ NewFileWatcher ⟨0, 0⟩ ["views"] with watcher := some ⟨false, some "close failed"⟩ }
        : FileWatcher).Close
      = .ok ({ NewFileWatcher ⟨0, 0⟩ ["views"] with
                subscribers := [], watcher := some ⟨true, some "close failed"⟩ },
          [], some "close failed") := by
  have h2 := C10_close_needs_start.2.1 (NewFileWatcher ⟨0, 0⟩ ["views"]) rfl (by decide)
  have h4 := C10_close_needs_start.2.2.2 (NewFileWatcher ⟨0, 0⟩ ["views"])
    { NewFileWatcher ⟨0, 0⟩ ["views"] with watcher := some ⟨false, some "close failed"⟩ }
    ⟨false, some "close failed"⟩ rfl
  refine ⟨C10_close_needs_start.1 ⟨0, 0⟩ ["views"], h2,
    C10_close_needs_start.2.2.1 (NewFileWatcher ⟨0, 0⟩ ["views"]) "inotify instance limit reached",
    ?_⟩
  have h5 := h4.2 (by decide)
  rw [h5]
  rfl

/-! Helper lemma for restart coalescing: inside a burst the pending deadline
is never reached, so the fold only moves the deadline forward. -/

theorem devStep_burst (evs : List RawEvent) :
    ∀ (d n : Nat),
      (∀ x ∈ evs, qualifiesGo x = true) →
      (∀ x ∈ evs.head?, x.time < d) →
      List.Chain' (fun a b => b.time < a.time + restartDebounceMs) evs →
      ∃ d2, evs.foldl devStep (some d, n) = (some d2, n) := by
  induction evs with
  | nil =>
    intro d n _ _ _
    exact ⟨d, rfl⟩
  | cons e rest ih =>
    intro d n hq hhead hchain
    have he : e.time < d := hhead e rfl
    have hstep : devStep (some d, n) e = (some (e.time + restartDebounceMs), n) := by
      unfold devStep
      simp [Nat.not_le.mpr he, hq e (List.mem_cons_self _ _)]
    rw [List.foldl_cons, hstep]
    exact ih (e.time + restartDebounceMs) n
      (fun x hx => hq x (List.mem_cons_of_mem _ hx))
      ((List.chain'_cons'.mp hchain).1)
      ((List.chain'_cons'.mp hchain).2)

/-- Claim C4: restart coalescing.  For a nonempty burst of qualifying Code
events (Write/Create on a `.go` path) in which consecutive events are
strictly ordered and arrive less than the 500 ms restart-debounce window
apart, every event resets the timer, the timer never fires inside the burst,
and exactly one restart cycle runs when it finally fires. -/
theorem C4_restart_coalescing (e : RawEvent) (rest : List RawEvent)
    (hq : ∀ x ∈ e :: rest, qualifiesGo x = true)
    (hchain : List.Chain'
      (fun a b => a.time < b.time ∧ b.time < a.time + restartDebounceMs) (e :: rest)) :
    devRun (e :: rest) = 1 := by
  have hstep : devStep (none, 0) e = (some (e.time + restartDebounceMs), 0) := by
    unfold devStep
    simp [hq e (List.mem_cons_self _ _)]
  have hhead : ∀ x ∈ rest.head?, x.time < e.time + restartDebounceMs := by
    intro x hx
    exact ((List.chain'_cons'.mp hchain).1 x hx).2
  have hchain2 : List.Chain' (fun a b => b.time < a.time + restartDebounceMs) rest :=
    ((List.chain'_cons'.mp hchain).2).imp (fun a b hab => hab.2)
  obtain ⟨d2, hfold⟩ := devStep_burst rest (e.time + restartDebounceMs) 0
    (fun x hx => hq x (List.mem_cons_of_mem _ hx)) hhead hchain2
  unfold devRun
  rw [List.foldl_cons, hstep, hfold]

/-- Concrete instantiation of `C4_restart_coalescing`, matching the spec
scenario: five Code events within 100 ms under the 500 ms restart-debounce
give exactly one restart cycle. -/
theorem C4_restart_coalescing_witness :
    devRun [⟨0, "main.go", true, false⟩, ⟨25, "app.go", true, false⟩,
      ⟨50, "db.go", false, true⟩, ⟨75, "api.go", true, false⟩,
      ⟨100, "main.go", true, false⟩] = 1 :=
  C4_restart_coalescing ⟨0, "main.go", true, false⟩
    [⟨25, "app.go", true, false⟩, ⟨50, "db.go", false, true⟩,
      ⟨75, "api.go", true, false⟩, ⟨100, "main.go", true, false⟩]
    (by decide) (by simp [List.chain'_cons, restartDebounceMs])

/-! Helper lemmas for the single-child supervisor invariant. -/

theorem runTrace_append (xs ys : List SupAction) :
    ∀ st, runTrace st (xs ++ ys) = (runTrace st xs).bind (fun st2 => runTrace st2 ys) := by
  induction xs with
  | nil =>
    intro st
    simp [runTrace]
  | cons a rest ih =>
    intro st
    cases a with
    | kill g =>
      rcases st with _ | ⟨g0, b⟩
      · simp [runTrace]
      · cases b
        · by_cases hg : g = g0 <;> simp [runTrace, hg, ih]
        · simp [runTrace]
    | wait g =>
      rcases st with _ | ⟨g0, b⟩
      · simp [runTrace]
      · cases b
        · simp [runTrace]
        · by_cases hg : g = g0 <;> simp [runTrace, hg, ih]
    | spawn g =>
      rcases st with _ | ⟨g0, b⟩
      · simp [runTrace, ih]
      · simp [runTrace]

theorem startServer_good_trace (ok : Bool) (st : SupState) (h : goodSup st) :
    goodSup (startServer ok st).1
    ∧ runTrace (autoOf st) (startServer ok st).2 = some (autoOf (startServer ok st).1) := by
  rcases h with ⟨hc, ha⟩ | ⟨g, hc, ha⟩ <;> cases ok
  · refine ⟨Or.inl ⟨?_, ?_⟩, ?_⟩ <;> simp [startServer, autoOf, hc, ha, runTrace]
  · refine ⟨Or.inr ⟨st.nextGen, ?_, ?_⟩, ?_⟩ <;>
      simp [startServer, autoOf, hc, ha, runTrace]
  · refine ⟨Or.inl ⟨?_, ?_⟩, ?_⟩ <;>
      simp [startServer, autoOf, hc, ha, runTrace, List.erase_cons_head]
  · refine ⟨Or.inr ⟨st.nextGen, ?_, ?_⟩, ?_⟩ <;>
      simp [startServer, autoOf, hc, ha, runTrace, List.erase_cons_head]

theorem runSupFrom_good (calls : List Bool) :
    ∀ st, goodSup st →
      goodSup (runSupFrom st calls).1
      ∧ runTrace (autoOf st) (runSupFrom st calls).2
          = some (autoOf (runSupFrom st calls).1) := by
  induction calls with
  | nil =>
    intro st h
    exact ⟨h, by simp [runSupFrom, runTrace]⟩
  | cons ok rest ih =>
    intro st h
    have h1 := startServer_good_trace ok st h
    have h2 := ih (startServer ok st).1 h1.1
    refine ⟨by simpa [runSupFrom] using h2.1, ?_⟩
    have hproj1 : (runSupFrom st (ok :: rest)).1 = (runSupFrom (startServer ok st).1 rest).1 := by
      simp [runSupFrom]
    have hproj2 : (runSupFrom st (ok :: rest)).2
        = (startServer ok st).2 ++ (runSupFrom (startServer ok st).1 rest).2 := by
      simp [runSupFrom]
    rw [hproj1, hproj2, runTrace_append, h1.2]
    exact h2.2

/-- Claim C5: single-child invariant.  For every sequence of `startServer`
calls (each spawn possibly failing), at most one child process is alive in
the final state, and the full kill/wait/spawn action trace respects the
discipline that every spawn happens only when no child exists — the previous
child was killed and then fully waited on before any respawn. -/
theorem C5_single_child (calls : List Bool) :
    (runSup calls).1.alive.length ≤ 1 ∧ traceOK (runSup calls).2 = true := by
  have h := runSupFrom_good calls initSup (Or.inl ⟨rfl, rfl⟩)
  constructor
  · rcases h.1 with ⟨_, ha⟩ | ⟨g, _, ha⟩ <;> simp [runSup, ha]
  · have h2 : runTrace (autoOf initSup) (runSup calls).2 = some (autoOf (runSup calls).1) := by
      simpa [runSup] using h.2
    have hinit : autoOf initSup = none := rfl
    rw [hinit] at h2
    simp [traceOK, h2]

/-- Claim C7 as the code implements it: when the build tool is unavailable at
startup (not on PATH, not in the home install location, and installation
fails), `setupBunAndAssets` falls back to copying the source assets — the CSS
verbatim, the JS with its `styles.css` import statements removed — and the
degradation message is logged exactly once in the startup log, while the
per-event rebuild path never emits it. -/
theorem C7_degraded_fallback (cssSrc jsSrc : String) (buildOk : Bool) :
    (setupBunAndAssets false false false buildOk (some cssSrc) (some jsSrc)).1
      = [("public/index.css", cssSrc), ("public/index.js", stripCssImports jsSrc)]
    ∧ ((setupBunAndAssets false false false buildOk (some cssSrc) (some jsSrc)).2).count
        degradedMsg = 1
    ∧ (∀ ok : Bool, (assetRebuildLog ok).count degradedMsg = 0) := by
  refine ⟨by simp [setupBunAndAssets, createFallbackAssets], ?_, ?_⟩
  · simp [setupBunAndAssets, createFallbackAssets, List.count_cons, degradedMsg]
  · intro ok
    cases ok <;> simp [assetRebuildLog, List.count_cons, degradedMsg]

/-- Counterexample to claim C7 as stated: the fallback does not copy the
source assets verbatim — the JS source is rewritten by stripping its
`styles.css` import before it is written to `public/index.js`, so the copied
file differs from the source. -/
theorem C7_counterexample :
    (setupBunAndAssets false false false true
        (some "body: red") (some "import \x27./styles.css\x27;run();")).1
      = [("public/index.css", "body: red"), ("public/index.js", "run();")]
    ∧ ("run();" : String) ≠ "import \x27./styles.css\x27;run();" := by
  constructor
  · rfl
  · decide

end Rebolo
